import Mathlib

/-!
# Verification of the ISOL8R PyJail execution engine

Shallow embedding of `src/core/pyjail/pyjail.py` (class `PythonJail`,
class `TimeoutGuard` and their helpers) and proofs about the claims of the
natural-language specification.

Modelling conventions:
* Python strings are Lean `String`s; most operations are defined over the
  underlying `List Char` so that every definition is executable and
  kernel-reducible.  Case folding is modelled for the ASCII range, which
  covers every string the jail manipulates.
* Wall-clock durations and the textual timestamp of log lines are outside
  the embedding (the spec places the log format out of scope); result
  fields and harness-session headers therefore omit the `duration` values.
* The behaviour of `exec` on the user snippet is abstracted by an
  `ExecBehavior` record: what the snippet printed, what it wrote to
  stderr, which payloads it queued through the escalation hook, and
  whether it finished, raised, or was cancelled by the watchdog.
* The external worker process `tiny_vmmgr` is abstracted by a runner
  function giving the outcome of each sequential spawn.
-/

namespace Isol8r

/-! ## Python string primitives (ASCII fragment) -/

/-- Characters treated as whitespace by Python's `str.strip`/`str.rstrip`
(ASCII fragment: space, tab, newline, carriage return, vertical tab,
form feed). -/
def pyIsSpace (c : Char) : Bool :=
  c = ' ' || c = '\t' || c = '\n' || c = '\r' || c = Char.ofNat 11 || c = Char.ofNat 12

/-- ASCII lower-casing of one character, as `str.lower` does on ASCII. -/
def lowerChar (c : Char) : Char :=
  if 'A' ≤ c ∧ c ≤ 'Z' then Char.ofNat (c.toNat + 32) else c

/-- `s.lower()` (ASCII fragment). -/
def lowerStr (s : String) : String :=
  String.mk (s.data.map lowerChar)

/-- Substring test on character lists: does `needle` occur contiguously in
the list?  (Python's `needle in hay`.) -/
def listIsSubstr (needle : List Char) : List Char → Bool
  | [] => needle.isEmpty
  | c :: rest => needle.isPrefixOf (c :: rest) || listIsSubstr needle rest

/-- `needle in hay` for Python strings. -/
def strContains (hay needle : String) : Bool :=
  listIsSubstr needle.data hay.data

/-- `s.rstrip()` (ASCII whitespace). -/
def pyRstrip (s : String) : String :=
  String.mk (((s.data.reverse).dropWhile pyIsSpace).reverse)

/-- `s.strip()` (ASCII whitespace). -/
def pyStrip (s : String) : String :=
  String.mk ((((s.data.dropWhile pyIsSpace).reverse).dropWhile pyIsSpace).reverse)

/-- One left-to-right pass replacing each `"\r\n"` by `"\n"`, as
`code.replace("\r\n", "\n")` does. -/
def replaceCrlfChars : List Char → List Char
  | [] => []
  | '\r' :: '\n' :: rest => '\n' :: replaceCrlfChars rest
  | c :: rest => c :: replaceCrlfChars rest

/-- `code.replace("\r\n", "\n")`. -/
def strReplaceCrlf (s : String) : String :=
  String.mk (replaceCrlfChars s.data)

/-- `execute_code`'s first step:
`sanitized_code = code.replace("\r\n", "\n").rstrip()`. -/
def sanitize (code : String) : String :=
  pyRstrip (strReplaceCrlf code)

/-! ## Decimal digit strings

Rendering (Python's decimal formatting of a non-negative integer) and
parsing (the `\d+` group of the fake-flag filename pattern). -/

/-- The decimal digit character for `d` (callers pass `d < 10`). -/
def digitChar (d : Nat) : Char :=
  match d with
  | 0 => '0' | 1 => '1' | 2 => '2' | 3 => '3' | 4 => '4'
  | 5 => '5' | 6 => '6' | 7 => '7' | 8 => '8' | _ => '9'

/-- Accumulator loop of decimal rendering (most significant digit first). -/
def natDigitsAux (n : Nat) (acc : List Char) : List Char :=
  if h : n < 10 then digitChar n :: acc
  else natDigitsAux (n / 10) (digitChar (n % 10) :: acc)
termination_by n
decreasing_by exact Nat.div_lt_self (by omega) (by omega)

/-- The decimal digit characters of `n`, as Python's `f"{n}"` prints a
non-negative integer. -/
def natDigits (n : Nat) : List Char :=
  natDigitsAux n []

/-- Value of a digit-character list read as a decimal numeral, extending
the accumulator `a`. -/
def digitsVal (cs : List Char) (a : Nat) : Nat :=
  cs.foldl (fun acc c => acc * 10 + (c.toNat - 48)) a

theorem digitChar_isDigit {d : Nat} (h : d < 10) : (digitChar d).isDigit = true := by
  interval_cases d <;> rfl

theorem digitChar_val {d : Nat} (h : d < 10) : (digitChar d).toNat - 48 = d := by
  interval_cases d <;> rfl

theorem digitChar_lower {d : Nat} (h : d < 10) : lowerChar (digitChar d) = digitChar d := by
  interval_cases d <;> rfl

theorem natDigitsAux_append (n : Nat) (acc : List Char) :
    natDigitsAux n acc = natDigitsAux n [] ++ acc := by
  induction n using Nat.strong_induction_on generalizing acc with
  | _ n ih =>
    by_cases h : n < 10
    · conv_lhs => rw [natDigitsAux]
      conv_rhs => rw [natDigitsAux]
      simp [h]
    · have hlt : n / 10 < n := Nat.div_lt_self (by omega) (by omega)
      conv_lhs => rw [natDigitsAux]
      conv_rhs => rw [natDigitsAux]
      simp only [h, dite_false]
      rw [ih _ hlt (digitChar (n % 10) :: acc), ih _ hlt [digitChar (n % 10)]]
      simp

theorem natDigits_split {n : Nat} (h : ¬ n < 10) :
    natDigits n = natDigits (n / 10) ++ [digitChar (n % 10)] := by
  rw [natDigits, natDigitsAux]
  simp only [h, dite_false]
  exact natDigitsAux_append _ _

theorem natDigits_all_digit (n : Nat) :
    ∀ c ∈ natDigits n, c.isDigit = true ∧ lowerChar c = c := by
  induction n using Nat.strong_induction_on with
  | _ n ih =>
    by_cases h : n < 10
    · intro c hc
      rw [natDigits, natDigitsAux] at hc
      simp only [h, dite_true, List.mem_singleton] at hc
      subst hc
      exact ⟨digitChar_isDigit h, digitChar_lower h⟩
    · intro c hc
      rw [natDigits_split h] at hc
      rcases List.mem_append.mp hc with h1 | h1
      · exact ih _ (Nat.div_lt_self (by omega) (by omega)) c h1
      · have hm : n % 10 < 10 := Nat.mod_lt _ (by omega)
        simp only [List.mem_singleton] at h1
        subst h1
        exact ⟨digitChar_isDigit hm, digitChar_lower hm⟩

theorem natDigits_ne_nil (n : Nat) : natDigits n ≠ [] := by
  by_cases h : n < 10
  · rw [natDigits, natDigitsAux]
    simp [h]
  · rw [natDigits_split h]
    simp

theorem digitsVal_append (xs ys : List Char) (a : Nat) :
    digitsVal (xs ++ ys) a = digitsVal ys (digitsVal xs a) := by
  simp [digitsVal, List.foldl_append]

theorem digitsVal_natDigits (n : Nat) (a : Nat) :
    digitsVal (natDigits n) a = a * 10 ^ (natDigits n).length + n := by
  induction n using Nat.strong_induction_on generalizing a with
  | _ n ih =>
    by_cases h : n < 10
    · rw [natDigits, natDigitsAux]
      simp only [h, dite_true]
      simp [digitsVal, digitChar_val h]
    · have hlt : n / 10 < n := Nat.div_lt_self (by omega) (by omega)
      have hm : n % 10 < 10 := Nat.mod_lt _ (by omega)
      rw [natDigits_split h, digitsVal_append]
      have hsingle : ∀ b : Nat, digitsVal [digitChar (n % 10)] b = b * 10 + n % 10 := by
        intro b
        simp [digitsVal, digitChar_val hm]
      rw [hsingle, ih _ hlt]
      simp only [List.length_append, List.length_singleton]
      have hdm : n / 10 * 10 + n % 10 = n := by omega
      have expand : (a * 10 ^ (natDigits (n / 10)).length + n / 10) * 10 + n % 10
          = a * (10 ^ (natDigits (n / 10)).length * 10) + (n / 10 * 10 + n % 10) := by ring
      rw [expand, hdm, ← pow_succ]

theorem digitsVal_natDigits_zero (n : Nat) : digitsVal (natDigits n) 0 = n := by
  simpa using digitsVal_natDigits n 0

/-! ## Capability Filter (`PythonJail.check_banned_keywords`) -/

/-- `PythonJail.DEFAULT_BANNED_KEYWORDS`, in source order. -/
def DEFAULT_BANNED_KEYWORDS : List String :=
  ["import", "from", "__import__", "eval", "exec(", "open(", "compile",
   "globals", "locals", "vars", "sys", "os", "subprocess", "builtins",
   "__class__", "__subclasses__", "inspect", "mmap", "socket", "thread",
   "multiprocessing", "signal", "ctypes", "resource", "memoryview",
   "setattr", "getattr(", "delattr", "lambda *", "lambda **", "input("]

/-- Lexicographic code-point comparison of character lists (Python's
`<` on strings). -/
def strLtChars : List Char → List Char → Bool
  | [], [] => false
  | [], _ :: _ => true
  | _ :: _, [] => false
  | a :: as, b :: bs =>
    if a.toNat < b.toNat then true
    else if b.toNat < a.toNat then false
    else strLtChars as bs

/-- Python's `<` on strings. -/
def strLt (a b : String) : Bool := strLtChars a.data b.data

/-- Insertion of a string into a list sorted by `strLt`. -/
def insortStr (x : String) : List String → List String
  | [] => [x]
  | y :: ys => if strLt x y then x :: y :: ys else y :: insortStr x ys

/-- Insertion sort for strings (Python's `sorted` on a set of strings). -/
def sortStrs : List String → List String
  | [] => []
  | x :: xs => insortStr x (sortStrs xs)

/-- `PythonJail.__init__`'s banned-keyword configuration:
`tuple(sorted(set(DEFAULT_BANNED_KEYWORDS + provided_keywords)))`. -/
def mkBannedKeywords (provided : List String) : List String :=
  sortStrs ((DEFAULT_BANNED_KEYWORDS ++ provided).dedup)

/-- The configuration a `PythonJail()` built with no extra keywords uses. -/
def defaultBanned : List String := mkBannedKeywords []

/-- `PythonJail.check_banned_keywords`: lower-case the code, then keep
each configured keyword whose lower-casing occurs as a substring. -/
def checkBannedKeywords (banned : List String) (code : String) : List String :=
  banned.filter (fun keyword => strContains (lowerStr code) (lowerStr keyword))

theorem mem_insortStr {a x : String} {l : List String} :
    a ∈ insortStr x l ↔ a = x ∨ a ∈ l := by
  induction l with
  | nil => simp [insortStr]
  | cons y ys ih =>
    by_cases h : strLt x y = true
    · simp [insortStr, h]
    · simp only [insortStr, if_neg h, List.mem_cons, ih]
      tauto

theorem mem_sortStrs {a : String} {l : List String} :
    a ∈ sortStrs l ↔ a ∈ l := by
  induction l with
  | nil => simp [sortStrs]
  | cons x xs ih => simp [sortStrs, mem_insortStr, ih]

theorem nodup_insortStr {x : String} {l : List String}
    (hx : x ∉ l) (hl : l.Nodup) : (insortStr x l).Nodup := by
  induction l with
  | nil => simp [insortStr]
  | cons y ys ih =>
    by_cases h : strLt x y = true
    · simp only [insortStr, if_pos h]
      exact List.nodup_cons.mpr ⟨hx, hl⟩
    · simp only [insortStr, if_neg h]
      rcases List.nodup_cons.mp hl with ⟨hy, hys⟩
      refine List.nodup_cons.mpr ⟨?_, ih (fun hmem => hx (List.mem_cons_of_mem _ hmem)) hys⟩
      intro hmem
      rcases mem_insortStr.mp hmem with h1 | h1
      · exact hx (h1 ▸ List.mem_cons_self _ _)
      · exact hy h1

theorem nodup_sortStrs {l : List String} (hl : l.Nodup) : (sortStrs l).Nodup := by
  induction l with
  | nil => simp [sortStrs]
  | cons x xs ih =>
    rcases List.nodup_cons.mp hl with ⟨hx, hxs⟩
    exact nodup_insortStr (fun hmem => hx (mem_sortStrs.mp hmem)) (ih hxs)

theorem mkBannedKeywords_nodup (provided : List String) :
    (mkBannedKeywords provided).Nodup :=
  nodup_sortStrs (List.nodup_dedup _)

theorem mem_mkBannedKeywords {k : String} {provided : List String} :
    k ∈ mkBannedKeywords provided ↔ k ∈ DEFAULT_BANNED_KEYWORDS ++ provided := by
  rw [mkBannedKeywords, mem_sortStrs, List.mem_dedup]

/-! ## Decoy artifacts (`_next_fake_flag_path` / `drop_fake_flag`)

The fake-flag directory is modelled as the list of file names it contains.
Writing the decoy file always succeeds (the `OSError` fallbacks of the
source only log a warning). -/

/-- One optional `[-_]` separator of the filename pattern. -/
def dropSep (cs : List Char) : List Char :=
  match cs with
  | c :: rest => if c = '-' ∨ c = '_' then rest else cs
  | [] => cs

/-- Strip an expected literal prefix, or fail. -/
def stripLit (lit cs : List Char) : Option (List Char) :=
  if lit.isPrefixOf cs then some (cs.drop lit.length) else none

/-- The filename pattern
`fake[-_]?flag[-_]?(\d+)\.txt$` (compiled with `re.IGNORECASE` and applied
with `re.match`, so anchored at both ends): on success, the numeric index
captured by the `\d+` group. -/
def parseFakeFlagIdx (name : String) : Option Nat :=
  let cs := name.data.map lowerChar
  match stripLit ['f', 'a', 'k', 'e'] cs with
  | none => none
  | some r1 =>
    match stripLit ['f', 'l', 'a', 'g'] (dropSep r1) with
    | none => none
    | some r2 =>
      let r3 := dropSep r2
      let ds := r3.takeWhile Char.isDigit
      let rest := r3.dropWhile Char.isDigit
      if ds.isEmpty then none
      else if rest = ['.', 't', 'x', 't'] then some (digitsVal ds 0)
      else none

/-- Body of `_next_fake_flag_path`'s scan loop: keep the larger of the
running maximum and the index the entry's name captures, if any. -/
def flagStep (acc : Nat) (e : String) : Nat :=
  match parseFakeFlagIdx e with
  | some k => if acc < k then k else acc
  | none => acc

/-- `_next_fake_flag_path`'s scan: highest captured index over the
directory entries, starting from `highest_number = 1`. -/
def highestFlagNumber (entries : List String) : Nat :=
  entries.foldl flagStep 1

/-- `_next_fake_flag_path`: `f"fake-flag{highest_number + 1}.txt"`. -/
def nextFakeFlagName (entries : List String) : String :=
  String.mk ("fake-flag".data ++ (natDigits (highestFlagNumber entries + 1) ++ ".txt".data))

/-- `drop_fake_flag`: write one new decoy file into the directory (the
catalog-drawn content does not affect the directory's name set). -/
def dropFakeFlag (entries : List String) : List String :=
  entries ++ [nextFakeFlagName entries]

theorem data_mk (l : List Char) : (String.mk l).data = l := rfl

theorem isPrefixOf_cons_cons (a b : Char) (as bs : List Char) :
    (a :: as).isPrefixOf (b :: bs) = (a == b && as.isPrefixOf bs) := rfl

theorem isPrefixOf_nil_left (bs : List Char) :
    ([] : List Char).isPrefixOf bs = true := by
  cases bs <;> rfl

theorem takeWhile_all_append (p : Char → Bool) (xs : List Char) (y : Char) (zs : List Char)
    (hxs : ∀ c ∈ xs, p c = true) (hy : p y = false) :
    (xs ++ y :: zs).takeWhile p = xs ∧ (xs ++ y :: zs).dropWhile p = y :: zs := by
  induction xs with
  | nil => simp [List.takeWhile, List.dropWhile, hy]
  | cons x xs ih =>
    have hx : p x = true := hxs x (List.mem_cons_self _ _)
    have hrest := ih (fun c hc => hxs c (List.mem_cons_of_mem _ hc))
    simp [List.takeWhile, List.dropWhile, hx, hrest.1, hrest.2]

theorem map_lowerChar_id {l : List Char} (h : ∀ c ∈ l, lowerChar c = c) :
    l.map lowerChar = l := by
  induction l with
  | nil => rfl
  | cons c cs ih =>
    simp only [List.map_cons, h c (List.mem_cons_self _ _)]
    rw [ih (fun d hd => h d (List.mem_cons_of_mem _ hd))]

theorem dropSep_of_digit (c : Char) (rest : List Char) (h : c.isDigit = true) :
    dropSep (c :: rest) = c :: rest := by
  have h1 : c ≠ '-' := fun hc => absurd (hc ▸ h) (by decide)
  have h2 : c ≠ '_' := fun hc => absurd (hc ▸ h) (by decide)
  simp [dropSep, h1, h2]

theorem parseFakeFlagIdx_mk (ds : List Char) (hne : ds ≠ [])
    (hd : ∀ c ∈ ds, c.isDigit = true ∧ lowerChar c = c) :
    parseFakeFlagIdx (String.mk ("fake-flag".data ++ (ds ++ ".txt".data)))
      = some (digitsVal ds 0) := by
  cases ds with
  | nil => exact absurd rfl hne
  | cons d tl =>
    have hdd : d.isDigit = true := (hd d (List.mem_cons_self _ _)).1
    have hmap : (d :: tl).map lowerChar = d :: tl :=
      map_lowerChar_id (fun c hc => (hd c hc).2)
    have hcs : ((String.mk ("fake-flag".data ++ ((d :: tl) ++ ".txt".data))).data).map lowerChar
        = 'f' :: 'a' :: 'k' :: 'e' :: '-' :: 'f' :: 'l' :: 'a' :: 'g' :: d ::
          (tl ++ ['.', 't', 'x', 't']) := by
      have hld : lowerChar d = d := (hd d (List.mem_cons_self _ _)).2
      have hmtl : tl.map lowerChar = tl :=
        map_lowerChar_id (fun c hc => (hd c (List.mem_cons_of_mem _ hc)).2)
      simp [data_mk, List.map_append, hld, hmtl]
      all_goals decide
    have htw := takeWhile_all_append Char.isDigit (d :: tl) '.' ['t', 'x', 't']
      (fun c hc => (hd c hc).1) (by decide)
    have htw1 := htw.1
    have htw2 := htw.2
    simp only [List.cons_append] at htw1 htw2
    have hs1 : stripLit ['f', 'a', 'k', 'e']
        ('f' :: 'a' :: 'k' :: 'e' :: '-' :: 'f' :: 'l' :: 'a' :: 'g' :: d ::
          (tl ++ ['.', 't', 'x', 't']))
        = some ('-' :: 'f' :: 'l' :: 'a' :: 'g' :: d :: (tl ++ ['.', 't', 'x', 't'])) := rfl
    have hd1 : dropSep ('-' :: 'f' :: 'l' :: 'a' :: 'g' :: d :: (tl ++ ['.', 't', 'x', 't']))
        = 'f' :: 'l' :: 'a' :: 'g' :: d :: (tl ++ ['.', 't', 'x', 't']) := rfl
    have hs2 : stripLit ['f', 'l', 'a', 'g']
        ('f' :: 'l' :: 'a' :: 'g' :: d :: (tl ++ ['.', 't', 'x', 't']))
        = some (d :: (tl ++ ['.', 't', 'x', 't'])) := rfl
    have hd2 := dropSep_of_digit d (tl ++ ['.', 't', 'x', 't']) hdd
    unfold parseFakeFlagIdx
    simp only [hcs, hs1, hd1, hs2, hd2, htw1, htw2]
    simp

theorem le_flagStep (acc : Nat) (e : String) : acc ≤ flagStep acc e := by
  unfold flagStep
  cases hp : parseFakeFlagIdx e with
  | none => exact Nat.le_refl acc
  | some k =>
    dsimp only
    split <;> omega

theorem flagStep_parse_le {e : String} {k : Nat} (acc : Nat)
    (hparse : parseFakeFlagIdx e = some k) : k ≤ flagStep acc e := by
  unfold flagStep
  rw [hparse]
  dsimp only
  split <;> omega

theorem le_foldl_flagStep (entries : List String) (acc : Nat) :
    acc ≤ entries.foldl flagStep acc := by
  induction entries generalizing acc with
  | nil => simp
  | cons e es ih =>
    simp only [List.foldl_cons]
    exact le_trans (le_flagStep acc e) (ih _)

theorem parse_le_foldl_flagStep {e : String} {k : Nat} :
    ∀ entries : List String, e ∈ entries → parseFakeFlagIdx e = some k →
      ∀ acc, k ≤ entries.foldl flagStep acc := by
  intro entries
  induction entries with
  | nil => intro hmem; cases hmem
  | cons x xs ih =>
    intro hmem hparse acc
    simp only [List.foldl_cons]
    rcases List.mem_cons.mp hmem with h1 | h1
    · subst h1
      exact le_trans (flagStep_parse_le acc hparse) (le_foldl_flagStep xs _)
    · exact ih h1 hparse _

theorem parseFakeFlagIdx_nextFakeFlagName (entries : List String) :
    parseFakeFlagIdx (nextFakeFlagName entries) = some (highestFlagNumber entries + 1) := by
  unfold nextFakeFlagName
  rw [parseFakeFlagIdx_mk (natDigits (highestFlagNumber entries + 1))
    (natDigits_ne_nil _) (natDigits_all_digit _)]
  rw [digitsVal_natDigits_zero]

/-- The freshly computed decoy file name is not already present in the
directory: the decoy write creates one genuinely new artifact. -/
theorem nextFakeFlagName_not_mem (entries : List String) :
    nextFakeFlagName entries ∉ entries := by
  intro hmem
  have h : highestFlagNumber entries + 1 ≤ highestFlagNumber entries :=
    parse_le_foldl_flagStep entries hmem (parseFakeFlagIdx_nextFakeFlagName entries) 1
  omega

/-! ## Honeypot banners, sass and message helpers -/

/-- `PythonJail.KEYWORD_HONEYPOTS`. -/
def KEYWORD_HONEYPOTS : List (String × String) :=
  [("import", "Nice try. Imports are in the other containment wing."),
   ("os", "Operating system access? In this economy?"),
   ("sys", "sys is currently out for coffee. Try later. Or never."),
   ("open", "The only thing opening here is a ticket to Security."),
   ("subprocess", "No subprocesses. The main process barely trusts you."),
   ("ctypes", "We saw what you did with ctypes last time. Denied."),
   ("socket", "Networking requests require a 700-page requisition form.")]

/-- `KEYWORD_HONEYPOTS.get(keyword, "Keyword violation detected.")`. -/
def honeypotComment (keyword : String) : String :=
  match KEYWORD_HONEYPOTS.find? (fun p => p.1 == keyword) with
  | some p => p.2
  | none => "Keyword violation detected."

/-- `PythonJail.ERROR_SASS`, keyed by the exception type's name.  The
source keys the table by the exception classes themselves; inside the
jail an exception's class is identified by its name, and the two jail
exception classes are handled on their own dedicated paths. -/
def sassOf (excName : String) : Option String :=
  match excName with
  | "SyntaxError" => some "The parser cried a little. Maybe check your indentation?"
  | "NameError" => some "Undefined names are the ghosts of forgotten imports."
  | "TypeError" => some "TypeError: because Python cares deeply about vibes."
  | "ValueError" => some "ValueError suggests your values need therapy."
  | "JailTimeout" => some "Time dilation detected. The snippet was put out to pasture."
  | "JailViolation" => some "That stunt is logged, catalogued, and gently mocked."
  | _ => none

/-- Python `repr` of one character under the chosen quote character
(printable-ASCII fragment). -/
def pyReprCharIn (quote c : Char) : String :=
  if c = '\\' then "\\\\"
  else if c = quote then "\\" ++ String.mk [quote]
  else if c = '\n' then "\\n"
  else if c = '\r' then "\\r"
  else if c = '\t' then "\\t"
  else String.mk [c]

/-- Python `repr` of a string for the printable-ASCII fragment the jail
manipulates: single-quoted, switching to double quotes when the text
contains a single quote but no double quote, escaping the chosen quote,
backslashes and common control characters. -/
def pyRepr (s : String) : String :=
  let sq := Char.ofNat 39
  let quote := if s.data.contains sq ∧ ¬ s.data.contains '"' then '"' else sq
  String.mk [quote] ++ String.join (s.data.map (pyReprCharIn quote)) ++ String.mk [quote]

/-- Whitespace word-splitting (Python `str.split()` with no argument). -/
def wordsAux : List Char → List Char → List String
  | [], cur => if cur.isEmpty then [] else [String.mk cur.reverse]
  | c :: rest, cur =>
    if pyIsSpace c then
      if cur.isEmpty then wordsAux rest [] else String.mk cur.reverse :: wordsAux rest []
    else wordsAux rest (c :: cur)

/-- `text.split()`. -/
def pySplit (s : String) : List String := wordsAux s.data []

/-- Greedy word-taking loop of `textwrap.shorten`: longest word prefix
whose single-space join fits in the budget. -/
def takeWordsAux (budget : Nat) : List String → String → String
  | [], cur => cur
  | w :: rest, cur =>
    let cand := if cur = "" then w else cur ++ " " ++ w
    if cand.length ≤ budget then takeWordsAux budget rest cand else cur

/-- `textwrap.shorten(text, width, placeholder)` for the inputs the jail
passes it: collapse runs of whitespace; if the collapsed text fits in
`width`, return it, otherwise return the longest word prefix that leaves
room for the placeholder, followed by the placeholder. -/
def textShorten (text : String) (width : Nat) (placeholder : String) : String :=
  let ws := pySplit text
  let joined := String.intercalate " " ws
  if joined.length ≤ width then joined
  else takeWordsAux (width - placeholder.length) ws "" ++ placeholder

/-- `PythonJail._describe_keyword_alert`. -/
def describeKeywordAlert (keywordHits : List String) (code : String) : String :=
  let excerpt :=
    textShorten (String.mk (code.data.map (fun c => if c = '\n' then ' ' else c))) 120 " ..."
  let uniqueHits := String.intercalate ", " (sortStrs keywordHits.dedup)
  "User attempted keywords [" ++ uniqueHits ++ "] via payload: " ++ pyRepr excerpt

/-! ## Timeout Guard (`TimeoutGuard.__exit__`)

The guard's cross-thread machinery (watchdog timer, asynchronous
exception injection) lives outside a sequential embedding; what the
claims are about is the propagation decision taken when the guarded
region is left, a pure function of the guard's `enabled`/`expired` state
and of the exception (if any) with which the region was left. -/

/-- `f"time budget exceeded for {label!r}"`. -/
def guardTimeoutMsg (label : String) : String :=
  "time budget exceeded for " ++ pyRepr label

/-- An exception arriving at `TimeoutGuard.__exit__`: the injected
`JailTimeout` (or a subclass), or anything else the protected code
raised. -/
inductive GuardExc where
  | jailTimeout (msg : String)
  | otherExc (excName excMsg : String)
deriving Repr, DecidableEq

/-- `TimeoutGuard.__exit__` as the map from the guard state and the
pending exception to the condition that propagates to the caller
(`none` = the region is left normally):
* a disabled guard changes nothing;
* `expired` with no pending exception raises the guard's `JailTimeout`;
* a pending `JailTimeout` propagates (`return False`);
* any other pending exception propagates unchanged (`return None`). -/
def guardExit (label : String) (enabled expired : Bool) (pending : Option GuardExc) :
    Option GuardExc :=
  if !enabled then pending
  else
    match pending with
    | none =>
      if expired then some (GuardExc.jailTimeout (guardTimeoutMsg label)) else none
    | some (GuardExc.jailTimeout m) => some (GuardExc.jailTimeout m)
    | some (GuardExc.otherExc n m) => some (GuardExc.otherExc n m)

/-! ## Escalation Payload Normalizer (`_normalise_vm_payload`, `vm_escape`) -/

/-- A value appearing as an element of an iterable payload.  `int n`
models a Python `int`; `strNum s` models a `str` on which the built-in
`int()` conversion is attempted (the model covers plain digit strings);
`nonNumeric` models any element `int()` rejects. -/
inductive PyScalar where
  | int (n : Int)
  | strNum (s : String)
  | nonNumeric
deriving Repr, DecidableEq

/-- Python's `int(item)` as used by the normalizer's loop: identity on
integers, decimal parsing of digit strings, failure otherwise. -/
def pyIntOf : PyScalar → Option Int
  | PyScalar.int n => some n
  | PyScalar.strNum s =>
    if s.data ≠ [] ∧ s.data.all Char.isDigit then some (Int.ofNat (digitsVal s.data 0))
    else none
  | PyScalar.nonNumeric => none

/-- A value passed to `vm_escape` as the payload. -/
inductive PyPayload where
  | text (s : String)
  | raw (b : List Nat)
  | iterable (items : List PyScalar)
  | notIterable
deriving Repr, DecidableEq

/-- The failure modes of `_normalise_vm_payload`. -/
inductive VmPayloadError where
  | valueError (msg : String)
  | typeError (msg : String)
  | unicodeEncodeError (msg : String)
deriving Repr, DecidableEq

/-- `latin-1` encoding: code points up to 255 map to single bytes,
anything above is an encoding error. -/
def encodeLatin1 (s : String) : Option (List Nat) :=
  if s.data.all (fun c => c.toNat ≤ 255) then some (s.data.map Char.toNat) else none

/-- `ascii` encoding. -/
def encodeAscii (s : String) : Option (List Nat) :=
  if s.data.all (fun c => c.toNat ≤ 127) then some (s.data.map Char.toNat) else none

/-- `utf-8` encoding (total). -/
def encodeUtf8 (s : String) : Option (List Nat) :=
  some (s.toUTF8.toList.map UInt8.toNat)

/-- The codec registry fragment relevant to the jail: known names map to
encoders, every other name raises `LookupError` inside `str.encode`. -/
def lookupCodec (name : String) : Option (String → Option (List Nat)) :=
  match name with
  | "latin-1" => some encodeLatin1
  | "latin1" => some encodeLatin1
  | "iso-8859-1" => some encodeLatin1
  | "ascii" => some encodeAscii
  | "utf-8" => some encodeUtf8
  | "utf8" => some encodeUtf8
  | _ => none

/-- `PythonJail.VM_PAYLOAD_LIMIT`. -/
def VM_PAYLOAD_LIMIT : Nat := 4096

/-- The iterable branch of `_normalise_vm_payload`: `int()` each element
(`ValueError` when the conversion fails), then range-check 0–255. -/
def convertInts : List PyScalar → Except VmPayloadError (List Nat)
  | [] => Except.ok []
  | item :: rest =>
    match pyIntOf item with
    | none => Except.error (VmPayloadError.valueError "Iterable payload elements must be integers")
    | some v =>
      if v < 0 ∨ 255 < v then
        Except.error (VmPayloadError.valueError "Iterable payload values must be within 0-255")
      else
        match convertInts rest with
        | Except.error e => Except.error e
        | Except.ok tl => Except.ok (v.toNat :: tl)

/-- The type-directed conversion step of `_normalise_vm_payload`
(everything before the emptiness and size checks). -/
def normalisePayloadData (payload : PyPayload) (encoding : String) :
    Except VmPayloadError (List Nat) :=
  match payload with
  | PyPayload.text s =>
    match lookupCodec encoding with
    | none => Except.error (VmPayloadError.valueError ("Unsupported encoding " ++ pyRepr encoding))
    | some codec =>
      match codec s with
      | none => Except.error (VmPayloadError.unicodeEncodeError
          ("cannot encode payload with codec " ++ encoding))
      | some data => Except.ok data
  | PyPayload.raw b => Except.ok b
  | PyPayload.iterable items => convertInts items
  | PyPayload.notIterable =>
    Except.error (VmPayloadError.typeError "vm_escape expects str, bytes, or iterable of integers")

/-- `PythonJail._normalise_vm_payload`: convert, then reject an empty
result and a result over `VM_PAYLOAD_LIMIT` bytes. -/
def normaliseVmPayload (payload : PyPayload) (encoding : String) :
    Except VmPayloadError (List Nat) :=
  match normalisePayloadData payload encoding with
  | Except.error e => Except.error e
  | Except.ok data =>
    if data.isEmpty then
      Except.error (VmPayloadError.valueError
        "vm_escape payload must not be empty (hint: ever tried fuzzing directories?)")
    else if VM_PAYLOAD_LIMIT < data.length then
      Except.error (VmPayloadError.valueError
        ("vm_escape payload exceeds " ++ toString VM_PAYLOAD_LIMIT ++ " bytes"))
    else Except.ok data

/-- The default of `vm_escape`'s keyword-only `encoding` parameter. -/
def VM_ESCAPE_DEFAULT_ENCODING : String := "latin-1"

/-- The `vm_escape` closure built by `_build_exec_environment`: normalise
the payload, append the bytes to the call-scoped queue and acknowledge;
on a normalisation failure the queue is untouched and the error
propagates into the executing snippet. -/
def vmEscape (payload : PyPayload) (encoding : String) (queue : List (List Nat)) :
    List (List Nat) × Except VmPayloadError String :=
  match normaliseVmPayload payload encoding with
  | Except.error e => (queue, Except.error e)
  | Except.ok data =>
    (queue ++ [data],
     Except.ok ("tiny_vmmgr payload queued (" ++ toString data.length ++ " bytes)."))

/-! ## Execution Environment Builder (`_build_exec_environment`) -/

/-- The kinds of value bound in the sandbox globals. -/
inductive EnvEntry where
  | builtinsTable (names : List String)
  | strConst (s : String)
  | hintHelper
  | escapeHook
  | lockedGlobals
deriving Repr, DecidableEq

/-- The names of `PythonJail.SAFE_BUILTINS`. -/
def SAFE_BUILTIN_NAMES : List String :=
  ["abs", "all", "any", "bool", "chr", "divmod", "enumerate", "filter", "float",
   "format", "hash", "hex", "int", "isinstance", "issubclass", "iter", "len",
   "list", "map", "max", "min", "next", "oct", "ord", "pow", "print", "range",
   "repr", "reversed", "round", "sorted", "str", "sum", "tuple", "zip", "help", "dir"]

/-- `PythonJail._build_exec_environment`'s symbol table, in insertion
order.  The single stateful capability is bound to the name
`"vm_escape"`. -/
def buildExecEnvironment : List (String × EnvEntry) :=
  [("__builtins__", EnvEntry.builtinsTable SAFE_BUILTIN_NAMES),
   ("__name__", EnvEntry.strConst "__isol8r_pyjail__"),
   ("__doc__", EnvEntry.strConst "PythonJail user namespace. Abandon hope, ye who import."),
   ("hint", EnvEntry.hintHelper),
   ("vm_escape", EnvEntry.escapeHook),
   ("__globals__", EnvEntry.lockedGlobals)]

/-- Name lookup in the sandbox globals. -/
def envLookup (name : String) : Option EnvEntry :=
  (buildExecEnvironment.find? (fun p => p.1 == name)).map Prod.snd

/-! ## Process Harness (`_launch_vm_payloads`)

Sessions omit the wall-clock `duration` field (real time is outside the
embedding); the worker process itself is external to the repository and
is abstracted by a per-spawn outcome. -/

/-- One harness session (`vm_sessions` entry). -/
structure VmSession where
  stdout : String
  stderr : String
  returncode : Option Int
  error : Option String
deriving Repr, DecidableEq

/-- Outcome of one attempt to run the worker on a payload, with output
streams already decoded (the source decodes leniently with replacement,
which never fails). -/
inductive VmRunOutcome where
  | finished (stdoutText stderrText : String) (returncode : Int)
  | timedOut (stdoutText stderrText : String) (returncode : Int)
  | fileNotFound (msg : String)
  | failed (msg : String)
deriving Repr, DecidableEq

/-- The session the harness loop records for one payload, per outcome. -/
def sessionOfRun : VmRunOutcome → VmSession
  | VmRunOutcome.finished out err rc =>
    { stdout := out, stderr := err, returncode := some rc,
      error := if rc = 0 then none else some ("tiny_vmmgr exited with code " ++ toString rc) }
  | VmRunOutcome.timedOut out err rc =>
    { stdout := out, stderr := err, returncode := some rc,
      error := some "tiny_vmmgr timed out while executing payload." }
  | VmRunOutcome.fileNotFound msg =>
    { stdout := "", stderr := "", returncode := none,
      error := some ("tiny_vmmgr missing: " ++ msg) }
  | VmRunOutcome.failed msg =>
    { stdout := "", stderr := msg, returncode := none,
      error := some ("tiny_vmmgr execution failed: " ++ msg) }

/-- Worker processes spawned for one payload (a `fileNotFound` outcome
means `Popen` itself failed, so nothing was spawned; a generic `failed`
outcome is counted conservatively as no successful spawn). -/
def spawnsOfRun : VmRunOutcome → Nat
  | VmRunOutcome.finished _ _ _ => 1
  | VmRunOutcome.timedOut _ _ _ => 1
  | VmRunOutcome.fileNotFound _ => 0
  | VmRunOutcome.failed _ => 0

/-- `f"tiny_vmmgr binary missing at {binary_path}"`. -/
def missingBinaryMsg (binaryPath : String) : String :=
  "tiny_vmmgr binary missing at " ++ binaryPath

/-- `PythonJail._launch_vm_payloads`: sessions produced for the queued
payloads (in order) together with the number of worker processes
spawned. -/
def launchVmPayloads (binaryExists : Bool) (binaryPath : String)
    (runner : Nat → VmRunOutcome) (payloads : List (List Nat)) :
    List VmSession × Nat :=
  if payloads.isEmpty then ([], 0)
  else if !binaryExists then
    (payloads.map (fun _ =>
      { stdout := "", stderr := missingBinaryMsg binaryPath, returncode := none,
        error := some (missingBinaryMsg binaryPath) }), 0)
  else
    let runs := (List.range payloads.length).map runner
    (runs.map sessionOfRun, (runs.map spawnsOfRun).sum)

/-! ## Result Aggregator and `execute_code` -/

/-- `ExecutionResult` (without the wall-clock `duration` field). -/
structure ExecutionResult where
  stdout : String
  stderr : String
  error : Option String
  banned_keywords : List String
  fake_flag_dropped : Bool
  banner : Option String
  vm_sessions : List VmSession
deriving Repr, DecidableEq

/-- `JailViolation`'s carried data. -/
structure Violation where
  message : String
  keywords : List String
  banner : Option String
  fake_flag_dropped : Bool
  log_entry : String
  payload_excerpt : Option String
deriving Repr, DecidableEq

/-- A condition `execute_code` raises to its caller instead of
returning. -/
inductive Raised where
  | nameError (msg : String)
  | violation (v : Violation)
deriving Repr, DecidableEq

/-- Outcome of `compile(code, "<pyjail>", "exec")`. -/
inductive CompileOutcome where
  | ok
  | err (excName excMsg : String)
deriving Repr, DecidableEq

/-- How the `exec` of the compiled snippet ended. -/
inductive RunOutcome where
  | normal
  | raised (excName excMsg : String)
  | timedOut
deriving Repr, DecidableEq

/-- Abstract behaviour of the submitted snippet under `exec`: captured
stdout/stderr writes, the payloads its `vm_escape` calls queued (in
order), and how it ended. -/
structure ExecBehavior where
  printed : String
  errWritten : String
  queued : List (List Nat)
  outcome : RunOutcome
deriving Repr, DecidableEq

/-- Everything one `execute_code` call produces: the returned result or
raised condition, the fake-flag directory afterwards, and how many
worker processes were spawned. -/
structure ExecCall where
  outcome : Except Raised ExecutionResult
  flagDir : List String
  spawned : Nat
deriving Repr

/-- The `NameError` text of the `legacy_hook(`/`hook(` easter egg. -/
def HOOK_NAME_ERROR : String :=
  "name 'legacy_hook' is not defined. Maybe try to 'escape_vm', spell backwards or just guess better?"

/-- `"Sorry, this isn't a flag store."`. -/
def flagNotice : String := "Sorry, this isn't a flag store."

/-- The post-run honeypot append of `execute_code` (lines 821–822 of the
source): when the lower-cased sanitized code mentions `"flag"`, the
notice is appended to stdout, preceded by a newline when stdout is
non-empty. -/
def appendFlagNotice (sanitized stdoutValue : String) : String :=
  if strContains (lowerStr sanitized) "flag" then
    stdoutValue ++ (if stdoutValue = "" then "" else "\n") ++ flagNotice
  else stdoutValue

/-- `rc` rendered as Python renders `{vm_outcome.get('returncode')}`. -/
def rcText : Option Int → String
  | none => "None"
  | some n => toString n

/-- The per-session header (`duration` rendering elided with the
field). -/
def vmHeader (idx : Nat) (s : VmSession) : String :=
  "[tiny_vmmgr #" ++ toString idx ++ "] returncode=" ++ rcText s.returncode

/-- One session's contribution to the merged stdout. -/
def vmStdoutFragment (idx : Nat) (s : VmSession) : String :=
  let header := vmHeader idx s
  let vmStdout := pyRstrip s.stdout
  if vmStdout = "" then header else header ++ "\nstdout:\n" ++ vmStdout

/-- One session's contribution to the merged stderr (possibly none). -/
def vmStderrFragment (idx : Nat) (s : VmSession) : List String :=
  let header := vmHeader idx s
  let vmStderr := pyRstrip s.stderr
  let errLines :=
    (if vmStderr = "" then [] else ["stderr:\n" ++ vmStderr]) ++
    (match s.error with
     | some e => [e]
     | none => [])
  if errLines.isEmpty then [] else [header ++ "\n" ++ String.intercalate "\n" errLines]

/-- Lines 795–817 of `execute_code`: merge the interpreter's captured
output with the harness sessions (identity when no session exists). -/
def assembleWithSessions (stdoutValue stderrValue : String) (sessions : List VmSession) :
    String × String :=
  if sessions.isEmpty then (stdoutValue, stderrValue)
  else
    let outFrags :=
      (if stdoutValue = "" then [] else [stdoutValue]) ++
      sessions.enum.map (fun p => vmStdoutFragment (p.1 + 1) p.2)
    let errFrags :=
      (if stderrValue = "" then [] else [stderrValue]) ++
      (sessions.enum.map (fun p => vmStderrFragment (p.1 + 1) p.2)).flatten
    (String.intercalate "\n\n" (outFrags.filter (fun f => f != "")),
     String.intercalate "\n\n" (errFrags.filter (fun f => f != "")))

/-- `PythonJail.execute_code`.  Parameters beyond the code string close
over the ambient world: the configured keyword list, the fake-flag
directory contents, the compiler's verdict on the sanitized snippet, the
snippet's own behaviour under `exec`, and the harness world (worker
binary presence/path and per-spawn outcomes). -/
def executeCode (banned : List String) (flagDir : List String) (code : String)
    (comp : CompileOutcome) (beh : ExecBehavior)
    (binaryExists : Bool) (binaryPath : String) (runner : Nat → VmRunOutcome) : ExecCall :=
  let sanitized := sanitize code
  if strContains sanitized "legacy_hook(" || strContains sanitized "hook(" then
    { outcome := Except.error (Raised.nameError HOOK_NAME_ERROR),
      flagDir := flagDir, spawned := 0 }
  else
    let keywordHits := checkBannedKeywords banned sanitized
    if !keywordHits.isEmpty then
      let message := describeKeywordAlert keywordHits sanitized
      let logPayload :=
        if sanitized.length ≤ 160 then sanitized
        else String.mk (sanitized.data.take 157) ++ "..."
      let honeypotBanner :=
        honeypotComment (keywordHits.headD "") ++ " Fake flag dispensed for archival joy."
      { outcome := Except.error (Raised.violation
          { message := message, keywords := keywordHits, banner := some honeypotBanner,
            fake_flag_dropped := true, log_entry := message,
            payload_excerpt := some logPayload }),
        flagDir := dropFakeFlag flagDir, spawned := 0 }
    else
      match comp with
      | CompileOutcome.err excName excMsg =>
        let humanError := excName ++ ": " ++ excMsg
        let stderrValue :=
          (match sassOf excName with
           | some sass => sass ++ "\n"
           | none => "") ++ humanError ++ "\n"
        { outcome := Except.ok
            { stdout := "", stderr := stderrValue, error := some humanError,
              banned_keywords := keywordHits, fake_flag_dropped := false,
              banner := none, vm_sessions := [] },
          flagDir := flagDir, spawned := 0 }
      | CompileOutcome.ok =>
        match beh.outcome with
        | RunOutcome.timedOut =>
          let msg := guardTimeoutMsg "PythonJail exec"
          let stderrValue := beh.errWritten ++
            (match sassOf "JailTimeout" with
             | some sass => sass ++ "\n"
             | none => "") ++ "JailTimeout: " ++ msg ++ "\n"
          { outcome := Except.ok
              { stdout := beh.printed, stderr := stderrValue, error := some msg,
                banned_keywords := keywordHits, fake_flag_dropped := false,
                banner := none, vm_sessions := [] },
            flagDir := flagDir, spawned := 0 }
        | RunOutcome.raised excName excMsg =>
          let stderrValue := beh.errWritten ++
            (match sassOf excName with
             | some sass => sass ++ "\n"
             | none => "") ++ excName ++ ": " ++ excMsg ++ "\n"
          { outcome := Except.ok
              { stdout := beh.printed, stderr := stderrValue,
                error := some (excName ++ ": " ++ excMsg),
                banned_keywords := keywordHits, fake_flag_dropped := false,
                banner := none, vm_sessions := [] },
            flagDir := flagDir, spawned := 0 }
        | RunOutcome.normal =>
          let launched := launchVmPayloads binaryExists binaryPath runner beh.queued
          let sessions := launched.1
          let assembled := assembleWithSessions beh.printed beh.errWritten sessions
          let banner : Option String :=
            if sessions.isEmpty then none
            else some "PyJail containment pierced: tiny_vmmgr engaged."
          let stdoutValue := appendFlagNotice sanitized assembled.1
          let stderrValue := assembled.2
          { outcome := Except.ok
              { stdout := stdoutValue, stderr := stderrValue,
                error := if stderrValue = "" then none else some (pyStrip stderrValue),
                banned_keywords := keywordHits, fake_flag_dropped := false,
                banner := banner, vm_sessions := sessions },
            flagDir := flagDir, spawned := launched.2 }

/-! ## Helper lemmas about `executeCode` and its components -/

theorem empty_append_str (s : String) : "" ++ s = s := by
  cases s
  rfl

/-- Branch reduction of `executeCode`: filter passed, compilation ok,
snippet finished normally. -/
theorem executeCode_normal (banned flagDir : List String) (code : String) (beh : ExecBehavior)
    (be : Bool) (bp : String) (runner : Nat → VmRunOutcome)
    (h1 : strContains (sanitize code) "legacy_hook(" = false)
    (h2 : strContains (sanitize code) "hook(" = false)
    (h3 : checkBannedKeywords banned (sanitize code) = [])
    (h4 : beh.outcome = RunOutcome.normal) :
    executeCode banned flagDir code CompileOutcome.ok beh be bp runner =
      { outcome := Except.ok
          { stdout := appendFlagNotice (sanitize code)
              (assembleWithSessions beh.printed beh.errWritten
                (launchVmPayloads be bp runner beh.queued).1).1,
            stderr := (assembleWithSessions beh.printed beh.errWritten
                (launchVmPayloads be bp runner beh.queued).1).2,
            error := if (assembleWithSessions beh.printed beh.errWritten
                (launchVmPayloads be bp runner beh.queued).1).2 = "" then none
              else some (pyStrip (assembleWithSessions beh.printed beh.errWritten
                (launchVmPayloads be bp runner beh.queued).1).2),
            banned_keywords := [],
            fake_flag_dropped := false,
            banner := if (launchVmPayloads be bp runner beh.queued).1.isEmpty then none
              else some "PyJail containment pierced: tiny_vmmgr engaged.",
            vm_sessions := (launchVmPayloads be bp runner beh.queued).1 },
        flagDir := flagDir,
        spawned := (launchVmPayloads be bp runner beh.queued).2 } := by
  unfold executeCode
  simp only [h1, h2, h3, h4, Bool.or_self, Bool.not_false, Bool.not_true,
    List.isEmpty_nil, if_false, if_true, ite_true, ite_false]
  rfl

/-- Branch reduction of `executeCode`: filter passed, compilation ok,
snippet raised some exception. -/
theorem executeCode_raised (banned flagDir : List String) (code : String) (beh : ExecBehavior)
    (be : Bool) (bp : String) (runner : Nat → VmRunOutcome) (excName excMsg : String)
    (h1 : strContains (sanitize code) "legacy_hook(" = false)
    (h2 : strContains (sanitize code) "hook(" = false)
    (h3 : checkBannedKeywords banned (sanitize code) = [])
    (h4 : beh.outcome = RunOutcome.raised excName excMsg) :
    executeCode banned flagDir code CompileOutcome.ok beh be bp runner =
      { outcome := Except.ok
          { stdout := beh.printed,
            stderr := beh.errWritten ++
              (match sassOf excName with
               | some sass => sass ++ "\n"
               | none => "") ++ excName ++ ": " ++ excMsg ++ "\n",
            error := some (excName ++ ": " ++ excMsg),
            banned_keywords := [],
            fake_flag_dropped := false,
            banner := none,
            vm_sessions := [] },
        flagDir := flagDir,
        spawned := 0 } := by
  unfold executeCode
  simp only [h1, h2, h3, h4, Bool.or_self, Bool.not_false, Bool.not_true,
    List.isEmpty_nil, if_false, if_true, ite_true, ite_false]
  rfl

/-- Branch reduction of `executeCode`: filter passed, compilation ok,
watchdog cancelled the snippet. -/
theorem executeCode_timedOut (banned flagDir : List String) (code : String) (beh : ExecBehavior)
    (be : Bool) (bp : String) (runner : Nat → VmRunOutcome)
    (h1 : strContains (sanitize code) "legacy_hook(" = false)
    (h2 : strContains (sanitize code) "hook(" = false)
    (h3 : checkBannedKeywords banned (sanitize code) = [])
    (h4 : beh.outcome = RunOutcome.timedOut) :
    executeCode banned flagDir code CompileOutcome.ok beh be bp runner =
      { outcome := Except.ok
          { stdout := beh.printed,
            stderr := beh.errWritten ++
              (match sassOf "JailTimeout" with
               | some sass => sass ++ "\n"
               | none => "") ++ "JailTimeout: " ++ guardTimeoutMsg "PythonJail exec" ++ "\n",
            error := some (guardTimeoutMsg "PythonJail exec"),
            banned_keywords := [],
            fake_flag_dropped := false,
            banner := none,
            vm_sessions := [] },
        flagDir := flagDir,
        spawned := 0 } := by
  unfold executeCode
  simp only [h1, h2, h3, h4, Bool.or_self, Bool.not_false, Bool.not_true,
    List.isEmpty_nil, if_false, if_true, ite_true, ite_false]
  rfl

/-- Branch reduction of `executeCode`: filter passed, compilation
failed. -/
theorem executeCode_compileErr (banned flagDir : List String) (code : String)
    (beh : ExecBehavior) (be : Bool) (bp : String) (runner : Nat → VmRunOutcome)
    (excName excMsg : String)
    (h1 : strContains (sanitize code) "legacy_hook(" = false)
    (h2 : strContains (sanitize code) "hook(" = false)
    (h3 : checkBannedKeywords banned (sanitize code) = []) :
    executeCode banned flagDir code (CompileOutcome.err excName excMsg) beh be bp runner =
      { outcome := Except.ok
          { stdout := "",
            stderr := (match sassOf excName with
               | some sass => sass ++ "\n"
               | none => "") ++ (excName ++ ": " ++ excMsg) ++ "\n",
            error := some (excName ++ ": " ++ excMsg),
            banned_keywords := [],
            fake_flag_dropped := false,
            banner := none,
            vm_sessions := [] },
        flagDir := flagDir,
        spawned := 0 } := by
  unfold executeCode
  simp only [h1, h2, h3, Bool.or_self, Bool.not_false, Bool.not_true,
    List.isEmpty_nil, if_false, if_true, ite_true, ite_false]
  rfl

/-- Branch reduction of `executeCode`: the Capability Filter matched. -/
theorem executeCode_violation (banned flagDir : List String) (code : String)
    (comp : CompileOutcome) (beh : ExecBehavior)
    (be : Bool) (bp : String) (runner : Nat → VmRunOutcome) (k : String) (ks : List String)
    (h1 : strContains (sanitize code) "legacy_hook(" = false)
    (h2 : strContains (sanitize code) "hook(" = false)
    (h3 : checkBannedKeywords banned (sanitize code) = k :: ks) :
    executeCode banned flagDir code comp beh be bp runner =
      { outcome := Except.error (Raised.violation
          { message := describeKeywordAlert (k :: ks) (sanitize code),
            keywords := k :: ks,
            banner := some (honeypotComment k ++ " Fake flag dispensed for archival joy."),
            fake_flag_dropped := true,
            log_entry := describeKeywordAlert (k :: ks) (sanitize code),
            payload_excerpt := some (if (sanitize code).length ≤ 160 then sanitize code
              else String.mk ((sanitize code).data.take 157) ++ "...") }),
        flagDir := dropFakeFlag flagDir,
        spawned := 0 } := by
  unfold executeCode
  simp only [h1, h2, h3, Bool.or_self, Bool.not_false, Bool.not_true,
    List.isEmpty_cons, if_false, if_true, ite_true, ite_false, List.headD_cons]
  rfl

theorem launchVmPayloads_length (be : Bool) (bp : String) (runner : Nat → VmRunOutcome)
    (payloads : List (List Nat)) :
    (launchVmPayloads be bp runner payloads).1.length = payloads.length := by
  cases payloads with
  | nil => rfl
  | cons p ps => cases be <;> simp [launchVmPayloads]

theorem launchVmPayloads_missing (bp : String) (runner : Nat → VmRunOutcome)
    (payloads : List (List Nat)) :
    (launchVmPayloads false bp runner payloads).1
      = payloads.map (fun _ =>
        { stdout := "", stderr := missingBinaryMsg bp, returncode := none,
          error := some (missingBinaryMsg bp) }) ∧
    (launchVmPayloads false bp runner payloads).2 = 0 := by
  cases payloads with
  | nil => exact ⟨rfl, rfl⟩
  | cons p ps => exact ⟨rfl, rfl⟩

theorem convertInts_map_int (ns : List Nat) (h : ∀ n ∈ ns, n ≤ 255) :
    convertInts (ns.map (fun n => PyScalar.int (Int.ofNat n))) = Except.ok ns := by
  induction ns with
  | nil => rfl
  | cons n tl ih =>
    have hn : n ≤ 255 := h n (List.mem_cons_self _ _)
    have htl := ih (fun m hm => h m (List.mem_cons_of_mem _ hm))
    simp only [List.map_cons, convertInts, pyIntOf]
    have hrange : ¬(Int.ofNat n < 0 ∨ (255 : Int) < Int.ofNat n) := by
      simp only [Int.ofNat_eq_coe]
      omega
    rw [if_neg hrange, htl]
    simp

theorem convertInts_bad (items : List PyScalar)
    (h : ∃ item ∈ items,
      pyIntOf item = none ∨ ∃ v, pyIntOf item = some v ∧ (v < 0 ∨ 255 < v)) :
    ∃ msg, convertInts items = Except.error (VmPayloadError.valueError msg) := by
  induction items with
  | nil =>
    rcases h with ⟨item, hmem, _⟩
    cases hmem
  | cons it tl ih =>
    rcases h with ⟨item, hmem, hbad⟩
    rcases List.mem_cons.mp hmem with h1 | h1
    · subst h1
      rcases hbad with hnone | ⟨v, hv, hrange⟩
      · exact ⟨"Iterable payload elements must be integers", by simp [convertInts, hnone]⟩
      · refine ⟨"Iterable payload values must be within 0-255", ?_⟩
        simp only [convertInts, hv]
        rw [if_pos hrange]
    · cases hit : pyIntOf it with
      | none =>
        exact ⟨"Iterable payload elements must be integers", by simp [convertInts, hit]⟩
      | some v =>
        by_cases hr : v < 0 ∨ 255 < v
        · refine ⟨"Iterable payload values must be within 0-255", ?_⟩
          simp only [convertInts, hit]
          rw [if_pos hr]
        · rcases ih ⟨item, h1, hbad⟩ with ⟨msg, hmsg⟩
          refine ⟨msg, ?_⟩
          simp only [convertInts, hit]
          rw [if_neg hr, hmsg]

theorem normaliseVmPayload_ok_bounds (p : PyPayload) (enc : String) (data : List Nat)
    (h : normaliseVmPayload p enc = Except.ok data) :
    data ≠ [] ∧ data.length ≤ VM_PAYLOAD_LIMIT := by
  unfold normaliseVmPayload at h
  split at h
  · cases h
  · split at h
    · cases h
    · split at h
      · cases h
      · rename_i d hok hie hlen
        injection h with h2
        subst h2
        constructor
        · intro hnil
          subst hnil
          exact hie rfl
        · omega

/-- Does the call raise something that is not a `JailViolation`? -/
def raisesNonViolation (call : ExecCall) : Bool :=
  match call.outcome with
  | Except.error (Raised.violation _) => false
  | Except.error (Raised.nameError _) => true
  | Except.ok _ => false

/-- Does leaving the guarded region surface a timeout condition? -/
def isTimeoutOutcome : Option GuardExc → Bool
  | some (GuardExc.jailTimeout _) => true
  | some (GuardExc.otherExc _ _) => false
  | none => false

/-! ## Claim theorems -/

/-- C1 (counterexample): the claim — the forbidden-term `JailViolation`
is the only condition `execute_code` ever raises — fails on the code:
submitting `"hook()"` trips the `legacy_hook(`/`hook(` easter-egg check,
which raises a `NameError` to the caller before anything else runs. -/
theorem C1_counterexample :
    raisesNonViolation (executeCode defaultBanned [] "hook()" CompileOutcome.ok
      ⟨"", "", [], RunOutcome.normal⟩ false "core/pwnables/tiny_vmmgr"
      (fun _ => VmRunOutcome.failed "")) = true := rfl

/-- C1 (amended): for every submitted code whose sanitized text
contains neither `"legacy_hook("` nor `"hook("`, the only condition
`execute_code` raises to its caller is the forbidden-term
`JailViolation`; preparation failures, runtime exceptions of the executed
code, timeouts and harness failures are all captured inside the returned
`ExecutionResult`. -/
theorem C1_amended (banned flagDir : List String) (code : String) (comp : CompileOutcome)
    (beh : ExecBehavior) (be : Bool) (bp : String) (runner : Nat → VmRunOutcome)
    (h1 : strContains (sanitize code) "legacy_hook(" = false)
    (h2 : strContains (sanitize code) "hook(" = false) :
    (∃ r, (executeCode banned flagDir code comp beh be bp runner).outcome = Except.ok r) ∨
    (∃ v, (executeCode banned flagDir code comp beh be bp runner).outcome
      = Except.error (Raised.violation v)) := by
  cases hh : checkBannedKeywords banned (sanitize code) with
  | cons k ks =>
    right
    rw [executeCode_violation banned flagDir code comp beh be bp runner k ks h1 h2 hh]
    exact ⟨_, rfl⟩
  | nil =>
    left
    cases comp with
    | err excName excMsg =>
      rw [executeCode_compileErr banned flagDir code beh be bp runner excName excMsg h1 h2 hh]
      exact ⟨_, rfl⟩
    | ok =>
      cases ho : beh.outcome with
      | normal =>
        rw [executeCode_normal banned flagDir code beh be bp runner h1 h2 hh ho]
        exact ⟨_, rfl⟩
      | raised excName excMsg =>
        rw [executeCode_raised banned flagDir code beh be bp runner excName excMsg h1 h2 hh ho]
        exact ⟨_, rfl⟩
      | timedOut =>
        rw [executeCode_timedOut banned flagDir code beh be bp runner h1 h2 hh ho]
        exact ⟨_, rfl⟩

/-- C1 (witness): the amended theorem at the snippet `"1 + 1"`. -/
theorem C1_witness :
    (strContains (sanitize "1 + 1") "legacy_hook(" = false ∧
      strContains (sanitize "1 + 1") "hook(" = false) ∧
    ((∃ r, (executeCode defaultBanned [] "1 + 1" CompileOutcome.ok
        ⟨"", "", [], RunOutcome.normal⟩ false "core/pwnables/tiny_vmmgr"
        (fun _ => VmRunOutcome.failed "")).outcome = Except.ok r) ∨
      (∃ v, (executeCode defaultBanned [] "1 + 1" CompileOutcome.ok
        ⟨"", "", [], RunOutcome.normal⟩ false "core/pwnables/tiny_vmmgr"
        (fun _ => VmRunOutcome.failed "")).outcome = Except.error (Raised.violation v))) :=
  ⟨⟨by decide, by decide⟩,
    C1_amended defaultBanned [] "1 + 1" CompileOutcome.ok
      ⟨"", "", [], RunOutcome.normal⟩ false "core/pwnables/tiny_vmmgr"
      (fun _ => VmRunOutcome.failed "") (by decide) (by decide)⟩

/-- C2 (counterexample): on `"hook(import)"` the Capability Filter
matches `"import"`, yet `execute_code` raises the easter-egg `NameError`
before the filter ever runs: no `JailViolation` is raised and no decoy
artifact is written, so the claim fails as stated. -/
theorem C2_counterexample :
    checkBannedKeywords defaultBanned (sanitize "hook(import)") = ["import"] ∧
    (executeCode defaultBanned [] "hook(import)" CompileOutcome.ok
        ⟨"", "", [], RunOutcome.normal⟩ false "core/pwnables/tiny_vmmgr"
        (fun _ => VmRunOutcome.failed "")).outcome
      = Except.error (Raised.nameError HOOK_NAME_ERROR) ∧
    (executeCode defaultBanned [] "hook(import)" CompileOutcome.ok
        ⟨"", "", [], RunOutcome.normal⟩ false "core/pwnables/tiny_vmmgr"
        (fun _ => VmRunOutcome.failed "")).flagDir = [] :=
  ⟨rfl, rfl, rfl⟩

/-- C2 (amended): for every submitted code free of the easter-egg
substrings on which the Capability Filter matches at least one configured
term (case-insensitively), `execute_code` raises a `JailViolation`
carrying exactly the matched terms and a banner; the call's entire
outcome is independent of the compiler verdict, the snippet behaviour and
the harness world (so nothing of the request is compiled, executed or
queued); no worker is spawned; and exactly one new decoy artifact — a
file name not previously present — is written to the fake-flag
directory. -/
theorem C2_amended (banned flagDir : List String) (code : String)
    (comp comp2 : CompileOutcome) (beh beh2 : ExecBehavior)
    (be be2 : Bool) (bp bp2 : String) (runner runner2 : Nat → VmRunOutcome)
    (k : String) (ks : List String)
    (h1 : strContains (sanitize code) "legacy_hook(" = false)
    (h2 : strContains (sanitize code) "hook(" = false)
    (h3 : checkBannedKeywords banned (sanitize code) = k :: ks) :
    ∃ v, (executeCode banned flagDir code comp beh be bp runner).outcome
        = Except.error (Raised.violation v) ∧
      v.keywords = k :: ks ∧
      v.banner = some (honeypotComment k ++ " Fake flag dispensed for archival joy.") ∧
      v.fake_flag_dropped = true ∧
      (executeCode banned flagDir code comp beh be bp runner).flagDir
        = flagDir ++ [nextFakeFlagName flagDir] ∧
      nextFakeFlagName flagDir ∉ flagDir ∧
      (executeCode banned flagDir code comp beh be bp runner).spawned = 0 ∧
      executeCode banned flagDir code comp beh be bp runner
        = executeCode banned flagDir code comp2 beh2 be2 bp2 runner2 := by
  rw [executeCode_violation banned flagDir code comp beh be bp runner k ks h1 h2 h3,
    executeCode_violation banned flagDir code comp2 beh2 be2 bp2 runner2 k ks h1 h2 h3]
  exact ⟨_, rfl, rfl, rfl, rfl, rfl, nextFakeFlagName_not_mem flagDir, rfl, rfl⟩

/-- C2 (witness): the amended theorem at `submit("import os")` with a
directory already holding `fake-flag3.txt`: a Violation with keywords
`["import", "os"]` and the import honeypot banner, one fresh decoy file,
and an outcome unchanged under a different compiler verdict, snippet
behaviour and harness world. -/
theorem C2_witness :
    checkBannedKeywords defaultBanned (sanitize "import os") = ["import", "os"] ∧
    ∃ v, (executeCode defaultBanned ["fake-flag3.txt"] "import os" CompileOutcome.ok
        ⟨"", "", [], RunOutcome.normal⟩ false "core/pwnables/tiny_vmmgr"
        (fun _ => VmRunOutcome.failed "")).outcome = Except.error (Raised.violation v) ∧
      v.keywords = ["import", "os"] ∧
      v.banner = some (honeypotComment "import" ++ " Fake flag dispensed for archival joy.") ∧
      v.fake_flag_dropped = true ∧
      (executeCode defaultBanned ["fake-flag3.txt"] "import os" CompileOutcome.ok
        ⟨"", "", [], RunOutcome.normal⟩ false "core/pwnables/tiny_vmmgr"
        (fun _ => VmRunOutcome.failed "")).flagDir
        = ["fake-flag3.txt"] ++ [nextFakeFlagName ["fake-flag3.txt"]] ∧
      nextFakeFlagName ["fake-flag3.txt"] ∉ (["fake-flag3.txt"] : List String) ∧
      (executeCode defaultBanned ["fake-flag3.txt"] "import os" CompileOutcome.ok
        ⟨"", "", [], RunOutcome.normal⟩ false "core/pwnables/tiny_vmmgr"
        (fun _ => VmRunOutcome.failed "")).spawned = 0 ∧
      executeCode defaultBanned ["fake-flag3.txt"] "import os" CompileOutcome.ok
        ⟨"", "", [], RunOutcome.normal⟩ false "core/pwnables/tiny_vmmgr"
        (fun _ => VmRunOutcome.failed "")
        = executeCode defaultBanned ["fake-flag3.txt"] "import os"
            (CompileOutcome.err "SyntaxError" "boom")
            ⟨"x", "y", [[1]], RunOutcome.timedOut⟩ true "elsewhere"
            (fun _ => VmRunOutcome.finished "" "" 0) := by
  constructor
  · decide
  · exact C2_amended defaultBanned ["fake-flag3.txt"] "import os" CompileOutcome.ok
      (CompileOutcome.err "SyntaxError" "boom") ⟨"", "", [], RunOutcome.normal⟩
      ⟨"x", "y", [[1]], RunOutcome.timedOut⟩ false true "core/pwnables/tiny_vmmgr" "elsewhere"
      (fun _ => VmRunOutcome.failed "") (fun _ => VmRunOutcome.finished "" "" 0)
      "import" ["os"] (by decide) (by decide) (by decide)


/-- Behaviour used by C3's counterexample: the snippet queues one
payload through the hook, then raises. -/
def c3Behavior : ExecBehavior :=
  ⟨"", "", [[65]], RunOutcome.raised "ZeroDivisionError" "division by zero"⟩

/-- C3 (counterexample): the claim — every queued escalation payload
yields exactly one harness session in the returned result — fails on the
code: a snippet that queues one payload and then raises returns through
the runtime-exception path, whose `ExecutionResult` carries an empty
`vm_sessions` list, leaving the queued payload without a session. -/
theorem C3_counterexample :
    c3Behavior.queued.length = 1 ∧
    (executeCode defaultBanned [] "x = vm_escape(\"A\")\n1/0" CompileOutcome.ok c3Behavior
        false "core/pwnables/tiny_vmmgr" (fun _ => VmRunOutcome.failed "")).outcome
      = Except.ok
        { stdout := "", stderr := "ZeroDivisionError: division by zero\n",
          error := some "ZeroDivisionError: division by zero", banned_keywords := [],
          fake_flag_dropped := false, banner := none, vm_sessions := [] } :=
  ⟨rfl, rfl⟩

/-- C3 (amended): for every execution that is not rejected by the
Capability Filter (nor short-circuited by the `hook(` easter egg),
compiles, and completes normally, the returned result carries exactly the
sessions the harness produced for the queued payloads — one session per
queued payload, none fabricated and none dropped.  Executions that raise
or time out discard their queue without sessions, which is what the
counterexample exhibits. -/
theorem C3_amended (banned flagDir : List String) (code : String) (beh : ExecBehavior)
    (be : Bool) (bp : String) (runner : Nat → VmRunOutcome)
    (h1 : strContains (sanitize code) "legacy_hook(" = false)
    (h2 : strContains (sanitize code) "hook(" = false)
    (h3 : checkBannedKeywords banned (sanitize code) = [])
    (h4 : beh.outcome = RunOutcome.normal) :
    ∃ r, (executeCode banned flagDir code CompileOutcome.ok beh be bp runner).outcome
        = Except.ok r ∧
      r.vm_sessions = (launchVmPayloads be bp runner beh.queued).1 ∧
      r.vm_sessions.length = beh.queued.length := by
  rw [executeCode_normal banned flagDir code beh be bp runner h1 h2 h3 h4]
  exact ⟨_, rfl, rfl, launchVmPayloads_length be bp runner beh.queued⟩

/-- C3 (witness): the amended theorem at a snippet that queues one
two-byte payload and finishes normally with the worker present. -/
theorem C3_witness :
    ∃ r, (executeCode defaultBanned [] "x = vm_escape(\"AB\")" CompileOutcome.ok
        ⟨"", "", [[65, 66]], RunOutcome.normal⟩ true "core/pwnables/tiny_vmmgr"
        (fun _ => VmRunOutcome.finished "vm says hi" "" 0)).outcome = Except.ok r ∧
      r.vm_sessions = (launchVmPayloads true "core/pwnables/tiny_vmmgr"
        (fun _ => VmRunOutcome.finished "vm says hi" "" 0) [[65, 66]]).1 ∧
      r.vm_sessions.length = 1 :=
  C3_amended defaultBanned [] "x = vm_escape(\"AB\")"
    ⟨"", "", [[65, 66]], RunOutcome.normal⟩ true "core/pwnables/tiny_vmmgr"
    (fun _ => VmRunOutcome.finished "vm says hi" "" 0)
    (by decide) (by decide) (by decide) rfl

/-- C4 (counterexample): the sandbox namespace has no binding named
`escape` — the escalation hook is bound to the name `vm_escape` (the
in-sandbox `help`/`dir` decoys merely hint at `escape`), so the claim
that the hook is exposed under the name `escape` is false. -/
theorem C4_counterexample :
    envLookup "escape" = none ∧ envLookup "vm_escape" = some EnvEntry.escapeHook :=
  ⟨rfl, rfl⟩

/-- C4 (amended): the sandbox namespace exposes the escalation hook
under the name `vm_escape`, with keyword-only `encoding` defaulting to
`"latin-1"`; when invoked it normalizes the payload, appends the bytes to
the call-scoped queue, and returns a human-readable acknowledgement
containing the accepted byte count — performing no execution itself (the
hook's output is only the extended queue and the acknowledgement
string). -/
theorem C4_amended :
    envLookup "vm_escape" = some EnvEntry.escapeHook ∧
    VM_ESCAPE_DEFAULT_ENCODING = "latin-1" ∧
    ∀ (p : PyPayload) (enc : String) (q : List (List Nat)) (data : List Nat),
      normaliseVmPayload p enc = Except.ok data →
      vmEscape p enc q =
        (q ++ [data],
         Except.ok ("tiny_vmmgr payload queued (" ++ toString data.length ++ " bytes).")) := by
  refine ⟨rfl, rfl, ?_⟩
  intro p enc q data h
  unfold vmEscape
  rw [h]

/-- C4 (witness): the amended theorem at the two-byte text payload
`"hi"` with the default encoding. -/
theorem C4_witness :
    normaliseVmPayload (PyPayload.text "hi") "latin-1" = Except.ok [104, 105] ∧
    vmEscape (PyPayload.text "hi") "latin-1" []
      = ([[104, 105]], Except.ok "tiny_vmmgr payload queued (2 bytes).") := by
  constructor
  · rfl
  · exact C4_amended.2.2 (PyPayload.text "hi") "latin-1" [] [104, 105] rfl

/-- C5 (counterexample): `submit("print('flag')")` passes the filter
and completes, the snippet prints exactly `"flag\n"`, yet the result's
stdout is `"flag\n\nSorry, this isn't a flag store."` — the post-run
honeypot append (C10) falsifies the claim that stdout exactly reflects
the printed text. -/
theorem C5_counterexample :
    checkBannedKeywords defaultBanned (sanitize "print('flag')") = [] ∧
    (executeCode defaultBanned [] "print('flag')" CompileOutcome.ok
        ⟨"flag\n", "", [], RunOutcome.normal⟩ false "core/pwnables/tiny_vmmgr"
        (fun _ => VmRunOutcome.failed "")).outcome
      = Except.ok
        { stdout := "flag\n\nSorry, this isn't a flag store.", stderr := "",
          error := none, banned_keywords := [], fake_flag_dropped := false,
          banner := none, vm_sessions := [] } ∧
    ("flag\n\nSorry, this isn't a flag store." : String) ≠ "flag\n" :=
  ⟨rfl, rfl, by decide⟩

/-- C5 (amended): for every submitted code without forbidden terms and
without the `hook(` easter-egg substrings, whose lower-cased text does
not contain `"flag"`, which queues no escalation payloads and writes
nothing to stderr: if it completes normally within the budget the
result's error is `None` and stdout is exactly the printed text; if it
raises an exception without a sass entry, stdout is the printed text,
stderr is exactly the raised-exception text, and error names it.  In
particular `submit("print('hi')")` yields stdout `"hi\n"` and error
`None` (see the witness). -/
theorem C5_amended (banned flagDir : List String) (code : String) (beh : ExecBehavior)
    (be : Bool) (bp : String) (runner : Nat → VmRunOutcome)
    (h1 : strContains (sanitize code) "legacy_hook(" = false)
    (h2 : strContains (sanitize code) "hook(" = false)
    (h3 : checkBannedKeywords banned (sanitize code) = [])
    (h5 : strContains (lowerStr (sanitize code)) "flag" = false)
    (h6 : beh.queued = [])
    (h7 : beh.errWritten = "") :
    (beh.outcome = RunOutcome.normal →
      (executeCode banned flagDir code CompileOutcome.ok beh be bp runner).outcome
        = Except.ok
          { stdout := beh.printed, stderr := "", error := none,
            banned_keywords := [], fake_flag_dropped := false, banner := none,
            vm_sessions := [] }) ∧
    (∀ excName excMsg, beh.outcome = RunOutcome.raised excName excMsg →
      sassOf excName = none →
      (executeCode banned flagDir code CompileOutcome.ok beh be bp runner).outcome
        = Except.ok
          { stdout := beh.printed,
            stderr := excName ++ ": " ++ excMsg ++ "\n",
            error := some (excName ++ ": " ++ excMsg),
            banned_keywords := [], fake_flag_dropped := false, banner := none,
            vm_sessions := [] }) := by
  constructor
  · intro h4
    rw [executeCode_normal banned flagDir code beh be bp runner h1 h2 h3 h4, h6]
    have hl : launchVmPayloads be bp runner [] = ([], 0) := rfl
    rw [hl]
    have ha : assembleWithSessions beh.printed beh.errWritten [] = (beh.printed, beh.errWritten) := rfl
    rw [ha, h7]
    simp [appendFlagNotice, h5]
  · intro excName excMsg h4 hsass
    rw [executeCode_raised banned flagDir code beh be bp runner excName excMsg h1 h2 h3 h4,
      h7, hsass]
    simp [empty_append_str]

/-- C5 (witness): the amended theorem at `submit("print('hi')")`:
stdout `"hi\n"`, error `None`, matched keywords empty. -/
theorem C5_witness :
    checkBannedKeywords defaultBanned (sanitize "print('hi')") = [] ∧
    (executeCode defaultBanned [] "print('hi')" CompileOutcome.ok
        ⟨"hi\n", "", [], RunOutcome.normal⟩ true "core/pwnables/tiny_vmmgr"
        (fun _ => VmRunOutcome.failed "")).outcome
      = Except.ok
        { stdout := "hi\n", stderr := "", error := none, banned_keywords := [],
          fake_flag_dropped := false, banner := none, vm_sessions := [] } := by
  constructor
  · decide
  · exact (C5_amended defaultBanned [] "print('hi')" ⟨"hi\n", "", [], RunOutcome.normal⟩
      true "core/pwnables/tiny_vmmgr" (fun _ => VmRunOutcome.failed "")
      (by decide) (by decide) (by decide) (by decide) rfl rfl).1 rfl

/-- C6 (counterexample): an expired guard left with a pending
`ZeroDivisionError` propagates that error, not a timeout —
`TimeoutGuard.__exit__` returns `None` for non-`JailTimeout` exceptions,
so the claim that the timeout always wins once it has fired is false. -/
theorem C6_counterexample :
    isTimeoutOutcome (guardExit "PythonJail exec" true true
      (some (GuardExc.otherExc "ZeroDivisionError" "division by zero"))) = false ∧
    guardExit "PythonJail exec" true true
        (some (GuardExc.otherExc "ZeroDivisionError" "division by zero"))
      = some (GuardExc.otherExc "ZeroDivisionError" "division by zero") :=
  ⟨rfl, rfl⟩

/-- C6 (amended): once the guard has expired, leaving the guarded
region normally raises the guard's `JailTimeout`, and a pending
`JailTimeout` propagates — the timeout condition surfaces in both of
those cases; but if the protected code raised some other exception in the
interim, that exception propagates unchanged instead of the timeout. -/
theorem C6_amended (label m excName excMsg : String) :
    guardExit label true true none
      = some (GuardExc.jailTimeout (guardTimeoutMsg label)) ∧
    guardExit label true true (some (GuardExc.jailTimeout m))
      = some (GuardExc.jailTimeout m) ∧
    isTimeoutOutcome (guardExit label true true none) = true ∧
    isTimeoutOutcome (guardExit label true true (some (GuardExc.jailTimeout m))) = true ∧
    guardExit label true true (some (GuardExc.otherExc excName excMsg))
      = some (GuardExc.otherExc excName excMsg) :=
  ⟨rfl, rfl, rfl, rfl, rfl⟩

/-- C7 (counterexample): the normalizer does not fail on a non-integer
iterable element when Python's `int()` can convert it: the element
`"3"` (a string, modelled by `PyScalar.strNum "3"`) is accepted, becomes
byte 3, and is queued — the claim that the normalizer fails on any
non-integer element is false. -/
theorem C7_counterexample :
    pyIntOf (PyScalar.strNum "3") = some 3 ∧
    normaliseVmPayload (PyPayload.iterable [PyScalar.strNum "3"]) VM_ESCAPE_DEFAULT_ENCODING
      = Except.ok [3] ∧
    vmEscape (PyPayload.iterable [PyScalar.strNum "3"]) VM_ESCAPE_DEFAULT_ENCODING []
      = ([[3]], Except.ok "tiny_vmmgr payload queued (1 bytes).") :=
  ⟨rfl, rfl, rfl⟩

theorem normaliseVmPayload_ok_of_data (p : PyPayload) (enc : String) (d : List Nat)
    (h : normalisePayloadData p enc = Except.ok d) (hne : d.isEmpty = false)
    (hlen : d.length ≤ VM_PAYLOAD_LIMIT) :
    normaliseVmPayload p enc = Except.ok d := by
  unfold normaliseVmPayload
  simp only [h]
  rw [hne]
  simp only [Bool.false_eq_true, if_false]
  rw [if_neg (by omega)]

theorem normaliseVmPayload_err_of_data (p : PyPayload) (enc : String) (e : VmPayloadError)
    (h : normalisePayloadData p enc = Except.error e) :
    normaliseVmPayload p enc = Except.error e := by
  unfold normaliseVmPayload
  simp only [h]

/-- C7 (amended): the escalation payload normalizer fails with a
`ValueError` for an unrecognized encoding name; passes raw bytes through;
converts an iterable of integers to 8-bit values, failing with a
`ValueError` whenever some element cannot be converted by the built-in
`int()` (rather than whenever it is not an integer — `int()` also
accepts, e.g., digit strings and truncates floats) or its converted value
lies outside 0–255; every accepted payload is non-empty and at most 4096
bytes (so empty and oversized results are rejected); and on every
rejection the hook call fails with nothing queued. -/
theorem C7_amended :
    (∀ (s : String) (enc : String), lookupCodec enc = none →
      normaliseVmPayload (PyPayload.text s) enc
        = Except.error (VmPayloadError.valueError ("Unsupported encoding " ++ pyRepr enc))) ∧
    (∀ b : List Nat, b.isEmpty = false → b.length ≤ VM_PAYLOAD_LIMIT →
      ∀ enc, normaliseVmPayload (PyPayload.raw b) enc = Except.ok b) ∧
    (∀ ns : List Nat, (∀ n ∈ ns, n ≤ 255) → ns.isEmpty = false →
      ns.length ≤ VM_PAYLOAD_LIMIT →
      normaliseVmPayload (PyPayload.iterable (ns.map (fun n => PyScalar.int (Int.ofNat n))))
        VM_ESCAPE_DEFAULT_ENCODING = Except.ok ns) ∧
    (∀ items : List PyScalar,
      (∃ item ∈ items,
        pyIntOf item = none ∨ ∃ v, pyIntOf item = some v ∧ (v < 0 ∨ 255 < v)) →
      ∀ enc, ∃ msg, normaliseVmPayload (PyPayload.iterable items) enc
        = Except.error (VmPayloadError.valueError msg)) ∧
    (∀ p enc data, normaliseVmPayload p enc = Except.ok data →
      data ≠ [] ∧ data.length ≤ VM_PAYLOAD_LIMIT) ∧
    (∀ p enc q e, normaliseVmPayload p enc = Except.error e → (vmEscape p enc q).1 = q) := by
  refine ⟨?_, ?_, ?_, ?_, normaliseVmPayload_ok_bounds, ?_⟩
  · intro s enc h
    refine normaliseVmPayload_err_of_data _ _ _ ?_
    unfold normalisePayloadData
    simp only [h]
  · intro b hne hlen enc
    exact normaliseVmPayload_ok_of_data _ _ _ rfl hne hlen
  · intro ns hmem hne hlen
    refine normaliseVmPayload_ok_of_data _ _ _ ?_ hne hlen
    have hdata : normalisePayloadData
        (PyPayload.iterable (ns.map (fun n => PyScalar.int (Int.ofNat n))))
        VM_ESCAPE_DEFAULT_ENCODING
        = convertInts (ns.map (fun n => PyScalar.int (Int.ofNat n))) := rfl
    rw [hdata, convertInts_map_int ns hmem]
  · intro items hbad enc
    rcases convertInts_bad items hbad with ⟨msg, hmsg⟩
    refine ⟨msg, normaliseVmPayload_err_of_data _ _ _ ?_⟩
    have hdata : normalisePayloadData (PyPayload.iterable items) enc
        = convertInts items := rfl
    rw [hdata, hmsg]
  · intro p enc q e h
    unfold vmEscape
    rw [h]

/-- C7 (witness): the amended theorem at an unknown codec name, a raw
two-byte payload, an iterable with a non-convertible element, and a
rejected hook call that leaves the queue untouched. -/
theorem C7_witness :
    lookupCodec "rot13" = none ∧
    normaliseVmPayload (PyPayload.text "boo") "rot13"
      = Except.error (VmPayloadError.valueError ("Unsupported encoding " ++ pyRepr "rot13")) ∧
    normaliseVmPayload (PyPayload.raw [1, 2]) "latin-1" = Except.ok [1, 2] ∧
    (∃ msg, normaliseVmPayload (PyPayload.iterable [PyScalar.nonNumeric]) "latin-1"
      = Except.error (VmPayloadError.valueError msg)) ∧
    (vmEscape (PyPayload.text "boo") "rot13" [[7]]).1 = [[7]] := by
  refine ⟨rfl, ?_, ?_, ?_, ?_⟩
  · exact C7_amended.1 "boo" "rot13" rfl
  · exact C7_amended.2.1 [1, 2] rfl (by decide) "latin-1"
  · exact C7_amended.2.2.2.1 [PyScalar.nonNumeric]
      ⟨PyScalar.nonNumeric, List.mem_cons_self _ _, Or.inl rfl⟩ "latin-1"
  · exact C7_amended.2.2.2.2.2 (PyPayload.text "boo") "rot13" [[7]] _
      (C7_amended.1 "boo" "rot13" rfl)


/-- C8: `check_banned_keywords` is a pure function returning exactly
the subsequence of the configured forbidden-term sequence — the
deduplicated union of the defaults and any operator-supplied additions —
whose terms occur (case-insensitively, as substrings) anywhere in the
lower-cased code, preserving the filter's configured order (the result is
a sublist of the configuration, and membership is equivalent to being a
configured term occurring in the lower-cased code). -/
theorem C8_check_banned_keywords_filter (provided : List String) (code : String) :
    (mkBannedKeywords provided).Nodup ∧
    (∀ k, k ∈ mkBannedKeywords provided ↔ k ∈ DEFAULT_BANNED_KEYWORDS ++ provided) ∧
    (checkBannedKeywords (mkBannedKeywords provided) code).Sublist (mkBannedKeywords provided) ∧
    (∀ k, k ∈ checkBannedKeywords (mkBannedKeywords provided) code ↔
      k ∈ mkBannedKeywords provided ∧ strContains (lowerStr code) (lowerStr k) = true) := by
  refine ⟨mkBannedKeywords_nodup provided, fun k => mem_mkBannedKeywords, ?_, ?_⟩
  · exact List.filter_sublist _
  · intro k
    simp [checkBannedKeywords, List.mem_filter]

/-- C9: if the worker binary is absent, the Process Harness produces
for every queued payload exactly one session whose error names the
missing binary, spawns no process, and the overall `execute_code` call
still completes normally with those sessions in the result. -/
theorem C9_missing_binary (bp : String) (runner : Nat → VmRunOutcome)
    (payloads : List (List Nat)) (banned flagDir : List String) (code : String)
    (beh : ExecBehavior)
    (h1 : strContains (sanitize code) "legacy_hook(" = false)
    (h2 : strContains (sanitize code) "hook(" = false)
    (h3 : checkBannedKeywords banned (sanitize code) = [])
    (h4 : beh.outcome = RunOutcome.normal) :
    ((launchVmPayloads false bp runner payloads).1.length = payloads.length ∧
      (∀ s ∈ (launchVmPayloads false bp runner payloads).1,
        s.error = some (missingBinaryMsg bp) ∧ s.returncode = none) ∧
      (launchVmPayloads false bp runner payloads).2 = 0) ∧
    ∃ r, (executeCode banned flagDir code CompileOutcome.ok beh false bp runner).outcome
        = Except.ok r ∧
      r.vm_sessions = (launchVmPayloads false bp runner beh.queued).1 ∧
      r.vm_sessions.length = beh.queued.length ∧
      (executeCode banned flagDir code CompileOutcome.ok beh false bp runner).spawned = 0 := by
  constructor
  · refine ⟨launchVmPayloads_length false bp runner payloads, ?_,
      (launchVmPayloads_missing bp runner payloads).2⟩
    intro s hs
    rw [(launchVmPayloads_missing bp runner payloads).1] at hs
    rcases List.mem_map.mp hs with ⟨a, _, rfl⟩
    exact ⟨rfl, rfl⟩
  · rw [executeCode_normal banned flagDir code beh false bp runner h1 h2 h3 h4]
    exact ⟨_, rfl, rfl, launchVmPayloads_length false bp runner beh.queued,
      (launchVmPayloads_missing bp runner beh.queued).2⟩

/-- C9 (witness): the theorem at one queued ten-byte payload with the
worker binary absent. -/
theorem C9_witness :
    ((launchVmPayloads false "core/pwnables/tiny_vmmgr" (fun _ => VmRunOutcome.failed "")
        [[10]]).1.length = 1 ∧
      (∀ s ∈ (launchVmPayloads false "core/pwnables/tiny_vmmgr"
          (fun _ => VmRunOutcome.failed "") [[10]]).1,
        s.error = some (missingBinaryMsg "core/pwnables/tiny_vmmgr") ∧ s.returncode = none) ∧
      (launchVmPayloads false "core/pwnables/tiny_vmmgr"
        (fun _ => VmRunOutcome.failed "") [[10]]).2 = 0) ∧
    ∃ r, (executeCode defaultBanned [] "x = vm_escape(\"0123456789\")" CompileOutcome.ok
        ⟨"", "", [[10]], RunOutcome.normal⟩ false "core/pwnables/tiny_vmmgr"
        (fun _ => VmRunOutcome.failed "")).outcome = Except.ok r ∧
      r.vm_sessions = (launchVmPayloads false "core/pwnables/tiny_vmmgr"
        (fun _ => VmRunOutcome.failed "") [[10]]).1 ∧
      r.vm_sessions.length = 1 ∧
      (executeCode defaultBanned [] "x = vm_escape(\"0123456789\")" CompileOutcome.ok
        ⟨"", "", [[10]], RunOutcome.normal⟩ false "core/pwnables/tiny_vmmgr"
        (fun _ => VmRunOutcome.failed "")).spawned = 0 :=
  C9_missing_binary "core/pwnables/tiny_vmmgr" (fun _ => VmRunOutcome.failed "") [[10]]
    defaultBanned [] "x = vm_escape(\"0123456789\")" ⟨"", "", [[10]], RunOutcome.normal⟩
    (by decide) (by decide) (by decide) rfl

/-- C10: for every submitted code that passes the keyword filter and
executes to completion, if the lower-cased code contains the substring
`"flag"`, the fixed string `"Sorry, this isn't a flag store."` is
appended to the result's stdout, preceded by a newline exactly when the
assembled stdout is already non-empty — even though the executed code
never printed it. -/
theorem C10_flag_notice (banned flagDir : List String) (code : String) (beh : ExecBehavior)
    (be : Bool) (bp : String) (runner : Nat → VmRunOutcome)
    (h1 : strContains (sanitize code) "legacy_hook(" = false)
    (h2 : strContains (sanitize code) "hook(" = false)
    (h3 : checkBannedKeywords banned (sanitize code) = [])
    (h4 : beh.outcome = RunOutcome.normal)
    (h5 : strContains (lowerStr (sanitize code)) "flag" = true) :
    ∃ r, (executeCode banned flagDir code CompileOutcome.ok beh be bp runner).outcome
        = Except.ok r ∧
      r.stdout =
        (assembleWithSessions beh.printed beh.errWritten
            (launchVmPayloads be bp runner beh.queued).1).1 ++
          (if (assembleWithSessions beh.printed beh.errWritten
              (launchVmPayloads be bp runner beh.queued).1).1 = "" then "" else "\n") ++
          flagNotice := by
  rw [executeCode_normal banned flagDir code beh be bp runner h1 h2 h3 h4]
  refine ⟨_, rfl, ?_⟩
  unfold appendFlagNotice
  rw [if_pos h5]

/-- C10 (witness): the theorem at `submit("print('flag')")` where the
snippet printed nothing: stdout is exactly the appended notice. -/
theorem C10_witness :
    strContains (lowerStr (sanitize "print('flag')")) "flag" = true ∧
    ∃ r, (executeCode defaultBanned [] "print('flag')" CompileOutcome.ok
        ⟨"", "", [], RunOutcome.normal⟩ true "core/pwnables/tiny_vmmgr"
        (fun _ => VmRunOutcome.failed "")).outcome = Except.ok r ∧
      r.stdout = "Sorry, this isn't a flag store." := by
  refine ⟨by decide, ?_⟩
  rcases C10_flag_notice defaultBanned [] "print('flag')" ⟨"", "", [], RunOutcome.normal⟩
      true "core/pwnables/tiny_vmmgr" (fun _ => VmRunOutcome.failed "")
      (by decide) (by decide) (by decide) rfl (by decide) with ⟨r, hr, hs⟩
  exact ⟨r, hr, hs.trans rfl⟩

end Isol8r
